import Mathlib

/-!
Verification of the attendance-marking and active-course core of the
`kasu-qr-attendance` Flask application (`src/server.py`).

The embedding models the SQLite tables (`attendance`, `courses`,
`active_course`) as lists of rows inside a `DB` structure, and the three
core handlers (`mark_attendance`, `set_course`, `get_course`) as pure
functions from a `DB` (plus the request payload and the clock values the
handler reads) to a response together with the resulting `DB`.

Storage faults are modelled by a `StorageOp → Option String` schedule: the
handler consults the schedule before each SQL statement it would execute,
and a `some e` entry makes that statement raise an exception with message
`e`, exactly where the Python `try`/`except` would catch it.  The `DB`
returned is the *committed* (reader-visible) state: `server.py` calls
`conn.commit()` immediately after each `INSERT` in `mark_attendance`, and
an exception reaches `finally: conn.close()`, which discards only the
uncommitted tail of the transaction.
-/

namespace KasuQR

/-! ## Python / SQLite string primitives

`str.strip()` removes leading and trailing whitespace; `str.lower()`
lowercases ASCII letters (all strings in play are ASCII).  SQLite's
`LOWER(TRIM(x))` has the same effect on such strings.  We implement both
over `List Char` so that every proof obligation reduces. -/

def isPySpace (c : Char) : Bool :=
  c == ' ' || c == '\t' || c == '\n' || c == '\r' || c == '\x0b' || c == '\x0c'

def stripChars (l : List Char) : List Char :=
  ((l.dropWhile isPySpace).reverse.dropWhile isPySpace).reverse

/-- Python `s.strip()` / SQLite `TRIM(s)`. -/
def strip (s : String) : String := String.mk (stripChars s.data)

def lowerChar (c : Char) : Char :=
  if 'A' ≤ c && c ≤ 'Z' then Char.ofNat (c.toNat + 32) else c

/-- Python `s.lower()` / SQLite `LOWER(s)` (ASCII). -/
def lower (s : String) : String := String.mk (s.data.map lowerChar)

/-- `server.py` line 111: `def norm_id(s): return str(s).strip().lower() ...`. -/
def norm_id (s : String) : String := lower (strip s)

/-- Python `x or default` for an optional string field of a JSON body:
a missing field and the empty string are both falsy. -/
def pyOr (s : Option String) (dflt : String) : String :=
  match s with
  | none => dflt
  | some v => if v = "" then dflt else v

/-! ## Data model (the SQLite tables of `initialize_db`) -/

/-- A row of the `attendance` table. -/
structure AttendanceRow where
  student_id : String
  name : String
  date : String
  time : String
  course : String
deriving Repr, DecidableEq

/-- A row of the `courses` table (`id` is the AUTOINCREMENT key). -/
structure CourseRow where
  id : Nat
  course_name : String
deriving Repr, DecidableEq

/-- A row of the `active_course` table (`id` is the AUTOINCREMENT key). -/
structure ActiveCourseRow where
  id : Nat
  course_id : Nat
  active_date : String
deriving Repr, DecidableEq

/-- The reader-visible database state.  `nextCourseId` / `nextActiveId`
model the AUTOINCREMENT counters of `courses` and `active_course`. -/
structure DB where
  attendance : List AttendanceRow
  courses : List CourseRow
  active_course : List ActiveCourseRow
  nextCourseId : Nat
  nextActiveId : Nat
deriving Repr, DecidableEq

/-! ## Ledger queries (`attendance` table) -/

/-- The WHERE clause
`date = ? AND LOWER(TRIM(student_id)) = ? AND LOWER(TRIM(course)) = ?`
used by both existence checks of `mark_attendance` (lines 527-531 and
547-551), with `nsid` the Python-normalised scanned id and `cl` the
literal `'general'` resp. `course_name.lower()`. -/
def attPred (d nsid cl : String) (r : AttendanceRow) : Bool :=
  r.date == d && lower (strip r.student_id) == nsid && lower (strip r.course) == cl

/-- `SELECT 1 FROM attendance WHERE ... LIMIT 1` as a Boolean. -/
def existsAttQ (att : List AttendanceRow) (d nsid cl : String) : Bool :=
  att.any (attPred d nsid cl)

/-- Number of ledger rows matching the existence-check key. -/
def countAtt (att : List AttendanceRow) (d nsid cl : String) : Nat :=
  att.countP (attPred d nsid cl)

/-- `SELECT COUNT(DISTINCT student_id) FROM attendance
WHERE date = ? AND LOWER(TRIM(course)) = ?` (lines 571-574). -/
def countDistinctStudents (att : List AttendanceRow) (d cl : String) : Nat :=
  ((att.filter (fun r => r.date == d && lower (strip r.course) == cl)).map
    (fun r => r.student_id)).dedup.length

/-! ## Active-session query (shared by `get_course` and `mark_attendance`)

`SELECT a.course_id, c.course_name FROM active_course a
 JOIN courses c ON c.id = a.course_id
 WHERE a.active_date = ? ORDER BY a.id DESC LIMIT 1` -/

def activeJoin (db : DB) (d : String) : List (ActiveCourseRow × CourseRow) :=
  (db.active_course.filter (fun a => a.active_date == d)).filterMap
    (fun a => (db.courses.find? (fun c => c.id == a.course_id)).map (fun c => (a, c)))

/-- `ORDER BY a.id DESC LIMIT 1`: the joined row with the largest
`active_course.id` (AUTOINCREMENT ids grow with insertion order, so the
largest id is the most recently inserted row). -/
def maxByAid : List (ActiveCourseRow × CourseRow) → Option (ActiveCourseRow × CourseRow)
  | [] => none
  | x :: xs =>
    match maxByAid xs with
    | none => some x
    | some y => if y.1.id ≤ x.1.id then some x else some y

def get_course_row (db : DB) (d : String) : Option (Nat × String) :=
  (maxByAid (activeJoin db d)).map (fun p => (p.1.course_id, p.2.course_name))

/-! ## `/get_course` handler (lines 398-424) -/

structure GetCourseResp where
  active : Bool
  course : String
  mode : String
  course_id : Option Nat
deriving Repr, DecidableEq

/-- The body returned when no active_course row exists for today —
and also, verbatim, by the `except` branch of the handler. -/
def noSessionResp : GetCourseResp :=
  { active := false, course := "", mode := "general", course_id := none }

/-- `get_course`: `storageFails` models the SELECT raising an exception,
which the handler catches, returning `noSessionResp` with HTTP 200. -/
def get_course (db : DB) (today : String) (storageFails : Bool) : GetCourseResp × Nat :=
  if storageFails then (noSessionResp, 200)
  else
    match get_course_row db today with
    | none => (noSessionResp, 200)
    | some (cid, cname) =>
      ({ active := true, course := cname, mode := "course", course_id := some cid }, 200)

/-! ## `/set_course` handler (lines 343-396), after the admin check -/

structure SetCourseResp where
  status : Nat
  message : String
deriving Repr, DecidableEq

def set_course (db : DB) (course_raw mode_raw : Option String) (today : String) :
    SetCourseResp × DB :=
  let course := strip (pyOr course_raw "")
  let mode := strip (pyOr mode_raw "general")
  if mode = "course" then
    if course = "" then ({ status := 400, message := "Course required for course mode" }, db)
    else
      -- SELECT id FROM courses WHERE LOWER(TRIM(course_name)) = course.lower().strip()
      let found := db.courses.find? (fun c => lower (strip c.course_name) == strip (lower course))
      let course_id : Nat := match found with
        | some r => r.id
        | none => db.nextCourseId
      let db1 : DB := match found with
        | some _ => db
        | none =>
          { db with
            courses := db.courses ++ [{ id := db.nextCourseId, course_name := course }],
            nextCourseId := db.nextCourseId + 1 }
      -- SELECT 1 FROM active_course WHERE course_id = ? AND active_date = ? LIMIT 1
      let db2 : DB :=
        if db1.active_course.any (fun a => a.course_id == course_id && a.active_date == today)
        then db1
        else
          { db1 with
            active_course := db1.active_course ++
              [{ id := db1.nextActiveId, course_id := course_id, active_date := today }],
            nextActiveId := db1.nextActiveId + 1 }
      ({ status := 200, message := "Course and mode updated" }, db2)
  else
    -- mode general: DELETE FROM active_course WHERE active_date = ?
    ({ status := 200, message := "Course and mode updated" },
      { db with active_course := db.active_course.filter (fun a => a.active_date != today) })

/-- Number of `active_course` rows for a given (course id, date) — the key
of `set_course`'s idempotence check. -/
def countActive (db : DB) (cid : Nat) (d : String) : Nat :=
  db.active_course.countP (fun a => a.course_id == cid && a.active_date == d)

/-! ## `/mark_attendance` handler (lines 490-592) -/

/-- The SQL statements `mark_attendance` executes, in program order. -/
inductive StorageOp where
  | selectActive
  | selectGeneralExists
  | insertGeneral
  | commitGeneral
  | selectCourseExists
  | insertCourse
  | commitCourse
  | selectCount
deriving Repr, DecidableEq

/-- No storage fault: every statement succeeds. -/
def noFail : StorageOp → Option String := fun _ => none

/-- SocketIO events the handler emits. -/
inductive Event where
  | attendance_update (status : String)
  | new_attendance (rec : AttendanceRow)
  | attendance_count (course : String) (count : Nat) (date : String)
deriving Repr, DecidableEq

structure MarkResult where
  success : Bool
  status : Nat
  messages : List String
  inserted : List AttendanceRow
  message : Option String
  error : Option String
  events : List Event
deriving Repr, DecidableEq

/-- The body returned by the outer `except` branch (lines 587-590). -/
def fail500 (e : String) : MarkResult :=
  { success := false, status := 500, messages := [], inserted := [],
    message := some "Failed to mark attendance", error := some e, events := [] }

/-- Python `payload.split('|', 1)`: split at the first `'|'`;
`none` when the separator is absent (`'|' not in payload`). -/
def splitFirstBar : List Char → Option (List Char × List Char)
  | [] => none
  | c :: rest =>
    if c = '|' then some ([], rest)
    else (splitFirstBar rest).map (fun p => (c :: p.1, p.2))

def generalRecordedMsg : String := "✅ General attendance recorded."

def generalAlreadyMsg : String := "⚠️ General attendance already recorded today."

def courseRecordedMsg (cn : String) : String :=
  "✅ Course attendance recorded for " ++ String.singleton '\x27' ++ cn
    ++ String.singleton '\x27' ++ "."

def courseAlreadyMsg (cn : String) : String :=
  "⚠️ Course attendance already recorded for " ++ String.singleton '\x27' ++ cn
    ++ String.singleton '\x27' ++ "."

/-- Lines 565-585: emit `new_attendance` per inserted record and, in course
mode, `attendance_count`; a failure of the COUNT query is caught by the
*inner* `except` (line 578) and only logged, then the 200 response is built. -/
def markFinish (db : DB) (today course_name : String) (isCourseMode : Bool)
    (msgs : List String) (ins : List AttendanceRow)
    (failOn : StorageOp → Option String) : MarkResult × DB :=
  let evs := ins.map Event.new_attendance
  let evs :=
    if isCourseMode then
      match failOn .selectCount with
      | some _ => evs
      | none =>
        evs ++ [Event.attendance_count course_name
          (countDistinctStudents db.attendance today (lower course_name)) today]
    else evs
  ({ success := true, status := 200, messages := msgs, inserted := ins,
     message := none, error := none, events := evs }, db)

/-- Lines 546-563: the course existence check and insert (course mode only).
`db` here is already committed (the General step committed before it). -/
def markCourseStep (db : DB) (student_id name today time_now course_name norm_scanned : String)
    (msgs : List String) (ins : List AttendanceRow)
    (failOn : StorageOp → Option String) : MarkResult × DB :=
  match failOn .selectCourseExists with
  | some e => (fail500 e, db)
  | none =>
    if existsAttQ db.attendance today norm_scanned (lower course_name) then
      markFinish db today course_name true (msgs ++ [courseAlreadyMsg course_name]) ins failOn
    else
      match failOn .insertCourse with
      | some e => (fail500 e, db)
      | none =>
        match failOn .commitCourse with
        | some e => (fail500 e, db)  -- INSERT not yet committed: rolled back on close
        | none =>
          let row : AttendanceRow :=
            { student_id := student_id, name := name, date := today,
              time := time_now, course := course_name }
          markFinish { db with attendance := db.attendance ++ [row] } today course_name true
            (msgs ++ [courseRecordedMsg course_name]) (ins ++ [row]) failOn

/-- After the General step: run the course step iff a session is active. -/
def markAfterGeneral (db : DB) (student_id name today time_now norm_scanned : String)
    (active : Option (Nat × String)) (msgs : List String) (ins : List AttendanceRow)
    (failOn : StorageOp → Option String) : MarkResult × DB :=
  match active with
  | some (_, cn) =>
    markCourseStep db student_id name today time_now cn norm_scanned msgs ins failOn
  | none => markFinish db today "General" false msgs ins failOn

/-- Lines 526-543: the General existence check and insert (always runs). -/
def markGeneralStep (db : DB) (student_id name today time_now norm_scanned : String)
    (active : Option (Nat × String)) (failOn : StorageOp → Option String) :
    MarkResult × DB :=
  if existsAttQ db.attendance today norm_scanned "general" then
    markAfterGeneral db student_id name today time_now norm_scanned active
      [generalAlreadyMsg] [] failOn
  else
    match failOn .insertGeneral with
    | some e => (fail500 e, db)
    | none =>
      match failOn .commitGeneral with
      | some e => (fail500 e, db)  -- INSERT not yet committed: rolled back on close
      | none =>
        let row : AttendanceRow :=
          { student_id := student_id, name := name, date := today,
            time := time_now, course := "General" }
        markAfterGeneral { db with attendance := db.attendance ++ [row] }
          student_id name today time_now norm_scanned active
          [generalRecordedMsg] [row] failOn

/-- The `/mark_attendance` handler.  `data` is the `data` field of the JSON
body; `today`/`time_now` are the Lagos-clock strings the handler computes. -/
def mark_attendance (db : DB) (data : Option String) (today time_now : String)
    (failOn : StorageOp → Option String) : MarkResult × DB :=
  let payload := strip (pyOr data "")
  match splitFirstBar payload.data with
  | none =>
    -- line 495-497: emit a generic update, then reject with 400
    ({ success := false, status := 400, messages := [], inserted := [],
       message := some "Invalid QR content (expected 'id|name')", error := none,
       events := [Event.attendance_update "new record added"] }, db)
  | some (ida, nmb) =>
    let student_id := strip (String.mk ida)
    let name := strip (String.mk nmb)
    let norm_scanned := norm_id student_id
    match failOn .selectActive with
    | some e => (fail500 e, db)
    | none =>
      match failOn .selectGeneralExists with
      | some e => (fail500 e, db)
      | none =>
        markGeneralStep db student_id name today time_now norm_scanned
          (get_course_row db today) failOn

/-! ## Generic helper lemmas -/

theorem dropWhile_head_false {α} (p : α → Bool) (l : List α) :
    ∀ c ∈ (l.dropWhile p).head?, p c = false := by
  induction l with
  | nil => simp
  | cons a t ih =>
    by_cases h : p a
    · simpa [List.dropWhile_cons, h] using ih
    · simp [List.dropWhile_cons, h]

theorem dropWhile_idem {α} (p : α → Bool) (l : List α) :
    (l.dropWhile p).dropWhile p = l.dropWhile p := by
  cases h : l.dropWhile p with
  | nil => simp
  | cons c t =>
    have hc : p c = false := by
      have h2 := dropWhile_head_false p l
      rw [h] at h2
      simpa using h2
    simp [List.dropWhile_cons, hc]

theorem stripChars_idem (l : List Char) : stripChars (stripChars l) = stripChars l := by
  unfold stripChars
  have h1 : (((l.dropWhile isPySpace).reverse.dropWhile isPySpace).reverse).dropWhile isPySpace
      = ((l.dropWhile isPySpace).reverse.dropWhile isPySpace).reverse := by
    rcases hr : ((l.dropWhile isPySpace).reverse.dropWhile isPySpace).reverse with _ | ⟨c, t⟩
    · simp
    · have hpre : ((l.dropWhile isPySpace).reverse.dropWhile isPySpace).reverse
          <+: l.dropWhile isPySpace := by
        have hs : (l.dropWhile isPySpace).reverse.dropWhile isPySpace
            <:+ (l.dropWhile isPySpace).reverse := List.dropWhile_suffix _
        exact List.reverse_suffix.mp (by simpa using hs)
      rcases hpre with ⟨t2, ht2⟩
      rw [hr] at ht2
      have hc : isPySpace c = false := by
        have h2 := dropWhile_head_false isPySpace l
        rw [← ht2] at h2
        simpa using h2
      rw [hr] at *
      simp [List.dropWhile_cons, hc]
  rw [h1, List.reverse_reverse, dropWhile_idem]

theorem strip_strip (s : String) : strip (strip s) = strip s := by
  simp [strip, stripChars_idem]

theorem norm_id_strip (s : String) : norm_id (strip s) = norm_id s := by
  simp [norm_id, strip_strip]

theorem splitFirstBar_eq_none (l : List Char) (h : '|' ∉ l) : splitFirstBar l = none := by
  induction l with
  | nil => rfl
  | cons c t ih =>
    have hc : ¬c = '|' := by
      intro hc; exact h (hc ▸ List.mem_cons_self c t)
    rw [splitFirstBar, if_neg hc, ih (fun hm => h (List.mem_cons_of_mem c hm))]
    rfl

theorem existsAttQ_append (l1 l2 : List AttendanceRow) (d n c : String) :
    existsAttQ (l1 ++ l2) d n c = (existsAttQ l1 d n c || existsAttQ l2 d n c) := by
  simp [existsAttQ, List.any_append]

theorem countAtt_append (l1 l2 : List AttendanceRow) (d n c : String) :
    countAtt (l1 ++ l2) d n c = countAtt l1 d n c + countAtt l2 d n c := by
  simp [countAtt, List.countP_append]

theorem existsAttQ_false_iff (l : List AttendanceRow) (d n c : String) :
    existsAttQ l d n c = false ↔ countAtt l d n c = 0 := by
  simp [existsAttQ, countAtt, List.countP_eq_zero, List.any_eq_true]

theorem existsAttQ_true_count_pos (l : List AttendanceRow) (d n c : String)
    (h : existsAttQ l d n c = true) : 0 < countAtt l d n c := by
  rcases List.any_eq_true.mp h with ⟨r, hr, hp⟩
  exact List.countP_pos_iff.mpr ⟨r, hr, hp⟩

theorem lower_strip_general : lower (strip "General") = "general" := by decide

/-- `mark_attendance` never touches `courses`/`active_course`/the counters,
so the active-session query gives the same answer before and after. -/
theorem get_course_row_congr (db db' : DB) (d : String)
    (hc : db'.courses = db.courses) (ha : db'.active_course = db.active_course) :
    get_course_row db' d = get_course_row db d := by
  unfold get_course_row activeJoin
  rw [hc, ha]

/-! ## C4: malformed payload -/

/-- C4: a `/mark_attendance` request whose payload lacks the `'|'` separator is
rejected with success=false and HTTP 400, the message names the invalid format,
the database is unchanged (no row inserted), and the generic
`attendance_update` notification is still emitted — under any storage-fault
schedule, since no storage statement is reached. -/
theorem c4_malformed_payload_rejected (db : DB) (data : Option String)
    (today time_now : String) (failOn : StorageOp → Option String)
    (h : '|' ∉ (strip (pyOr data "")).data) :
    mark_attendance db data today time_now failOn =
      ({ success := false, status := 400, messages := [], inserted := [],
         message := some "Invalid QR content (expected 'id|name')", error := none,
         events := [Event.attendance_update "new record added"] }, db) := by
  simp only [mark_attendance, splitFirstBar_eq_none _ h]

/-- Witness for C4 at the spec's concrete input `"noSeparator"`. -/
theorem c4_malformed_payload_rejected_witness :
    '|' ∉ (strip (pyOr (some "noSeparator") "")).data ∧
      mark_attendance
          { attendance := [], courses := [], active_course := [],
            nextCourseId := 1, nextActiveId := 1 }
          (some "noSeparator") "2024-03-01" "08:00:00" noFail =
        ({ success := false, status := 400, messages := [], inserted := [],
           message := some "Invalid QR content (expected 'id|name')", error := none,
           events := [Event.attendance_update "new record added"] },
          { attendance := [], courses := [], active_course := [],
            nextCourseId := 1, nextActiveId := 1 }) :=
  ⟨by decide, c4_malformed_payload_rejected _ _ _ _ _ (by decide)⟩

/-! ## Unfolding the fault-free `mark_attendance` run -/

theorem mark_run (db : DB) (data : Option String) (d t : String) (ida nmb : List Char)
    (hp : splitFirstBar (strip (pyOr data "")).data = some (ida, nmb)) :
    mark_attendance db data d t noFail =
      markGeneralStep db (strip (String.mk ida)) (strip (String.mk nmb)) d t
        (norm_id (strip (String.mk ida))) (get_course_row db d) noFail := by
  simp only [mark_attendance, hp, noFail]

/-- C3: on every valid scan the resulting ledger is the old ledger plus the
returned `inserted` list; at most two rows are created, all carrying the
scanned (student, name, date, time); their courses form a sublist of
`["General"]` in general mode and of `["General", courseName]` in course
mode (one General row and one row for the named course, never more); the
General check-and-insert runs regardless of mode: when no normalised
General record exists a General row is inserted, and otherwise the
"already recorded" General message is reported. -/
theorem c3_general_always_runs_at_most_two_rows
    (db : DB) (data : Option String) (d t : String) (ida nmb : List Char)
    (hp : splitFirstBar (strip (pyOr data "")).data = some (ida, nmb)) :
    ((mark_attendance db data d t noFail).2).attendance
        = db.attendance ++ (mark_attendance db data d t noFail).1.inserted
    ∧ (mark_attendance db data d t noFail).1.inserted.length ≤ 2
    ∧ (∀ x ∈ (mark_attendance db data d t noFail).1.inserted,
          x.student_id = strip (String.mk ida) ∧ x.name = strip (String.mk nmb)
            ∧ x.date = d ∧ x.time = t)
    ∧ (get_course_row db d = none →
          List.Sublist
            (((mark_attendance db data d t noFail).1.inserted).map (fun x => x.course))
            ["General"])
    ∧ (∀ cid cn, get_course_row db d = some (cid, cn) →
          List.Sublist
            (((mark_attendance db data d t noFail).1.inserted).map (fun x => x.course))
            ["General", cn])
    ∧ (existsAttQ db.attendance d (norm_id (strip (String.mk ida))) "general" = false →
          ({ student_id := strip (String.mk ida), name := strip (String.mk nmb), date := d,
             time := t, course := "General" } : AttendanceRow)
            ∈ (mark_attendance db data d t noFail).1.inserted)
    ∧ (existsAttQ db.attendance d (norm_id (strip (String.mk ida))) "general" = true →
          generalAlreadyMsg ∈ (mark_attendance db data d t noFail).1.messages) := by
  rw [mark_run db data d t ida nmb hp]
  rcases ha : get_course_row db d with _ | ⟨cid, cn⟩
  · by_cases hge : existsAttQ db.attendance d (norm_id (strip (String.mk ida))) "general"
    · simp [markGeneralStep, markAfterGeneral, markFinish, noFail, hge, ha]
    · simp [markGeneralStep, markAfterGeneral, markFinish, noFail, hge, ha]
  · by_cases hge : existsAttQ db.attendance d (norm_id (strip (String.mk ida))) "general"
    · by_cases hce : existsAttQ db.attendance d (norm_id (strip (String.mk ida))) (lower cn)
      · simp [markGeneralStep, markAfterGeneral, markCourseStep, markFinish, noFail,
          hge, ha, hce]
      · simp [markGeneralStep, markAfterGeneral, markCourseStep, markFinish, noFail,
          hge, ha, hce]
    · by_cases hce : existsAttQ
          (db.attendance ++
            [{ student_id := strip (String.mk ida), name := strip (String.mk nmb), date := d,
               time := t, course := "General" }])
          d (norm_id (strip (String.mk ida))) (lower cn)
      · simp [markGeneralStep, markAfterGeneral, markCourseStep, markFinish, noFail,
          hge, ha, hce]
      · simp [markGeneralStep, markAfterGeneral, markCourseStep, markFinish, noFail,
          hge, ha, hce]

/-- Witness for C3: the spec's course-mode scenario (active course CS101,
scan `"S100|Jane Doe"`) creates at most two rows. -/
theorem c3_general_always_runs_at_most_two_rows_witness :
    (mark_attendance
        { attendance := [], courses := [{ id := 1, course_name := "CS101" }],
          active_course := [{ id := 1, course_id := 1, active_date := "2024-03-01" }],
          nextCourseId := 2, nextActiveId := 2 }
        (some "S100|Jane Doe") "2024-03-01" "08:00:00" noFail).1.inserted.length ≤ 2 :=
  (c3_general_always_runs_at_most_two_rows
    { attendance := [], courses := [{ id := 1, course_name := "CS101" }],
      active_course := [{ id := 1, course_id := 1, active_date := "2024-03-01" }],
      nextCourseId := 2, nextActiveId := 2 }
    (some "S100|Jane Doe") "2024-03-01" "08:00:00"
    "S100".data "Jane Doe".data (by decide)).2.1

/-! ## Stability of the non-ledger tables under `mark_attendance` -/

theorem markFinish_snd (db : DB) (d cn : String) (b : Bool) (m : List String)
    (i : List AttendanceRow) (f : StorageOp → Option String) :
    (markFinish db d cn b m i f).2 = db := rfl

theorem mark_components (db : DB) (data : Option String) (d t : String)
    (failOn : StorageOp → Option String) :
    (mark_attendance db data d t failOn).2.courses = db.courses
    ∧ (mark_attendance db data d t failOn).2.active_course = db.active_course := by
  unfold mark_attendance
  rcases hsp : splitFirstBar (strip (pyOr data "")).data with _ | ⟨ida, nmb⟩ <;>
    simp only [hsp]
  · simp
  · unfold markGeneralStep markAfterGeneral markCourseStep markFinish
    constructor
    · repeat' split
      all_goals try simp [fail500]
      all_goals repeat' split
      all_goals simp [fail500]
    · repeat' split
      all_goals try simp [fail500]
      all_goals repeat' split
      all_goals simp [fail500]

theorem mark_get_course_row (db : DB) (data : Option String) (d t d' : String)
    (failOn : StorageOp → Option String) :
    get_course_row (mark_attendance db data d t failOn).2 d' = get_course_row db d' := by
  exact get_course_row_congr db _ d' (mark_components db data d t failOn).1
    (mark_components db data d t failOn).2

/-! ## Rows inserted by the engine match its own existence predicates -/

theorem attPred_general_row (d t s nm : String) :
    attPred d (norm_id (strip s)) "general"
      { student_id := strip s, name := nm, date := d, time := t, course := "General" }
      = true := by
  simp [attPred, norm_id, lower_strip_general]

theorem attPred_course_row (d t s nm cn : String) (hcn : strip cn = cn) :
    attPred d (norm_id (strip s)) (lower cn)
      { student_id := strip s, name := nm, date := d, time := t, course := cn } = true := by
  simp [attPred, norm_id, hcn]

/-- After a fault-free valid scan, a General record for the scanned
normalised id exists, and (in course mode) so does a record for the active
course. -/
theorem mark_establishes_exists (db : DB) (data : Option String) (d t : String)
    (ida nmb : List Char)
    (hp : splitFirstBar (strip (pyOr data "")).data = some (ida, nmb))
    (hcn : ∀ cid cn, get_course_row db d = some (cid, cn) → strip cn = cn) :
    existsAttQ ((mark_attendance db data d t noFail).2).attendance d
        (norm_id (strip (String.mk ida))) "general" = true
    ∧ (∀ cid cn, get_course_row db d = some (cid, cn) →
        existsAttQ ((mark_attendance db data d t noFail).2).attendance d
          (norm_id (strip (String.mk ida))) (lower cn) = true) := by
  rw [mark_run db data d t ida nmb hp]
  rcases ha : get_course_row db d with _ | ⟨cid, cn⟩
  · by_cases hge : existsAttQ db.attendance d (norm_id (strip (String.mk ida))) "general"
    · simp [markGeneralStep, markAfterGeneral, markFinish, noFail, hge, ha]
    · simp only [Bool.not_eq_true] at hge
      simp [markGeneralStep, markAfterGeneral, markFinish, noFail, hge, ha]
      rw [existsAttQ_append]
      simp [existsAttQ, attPred_general_row]
  · have hcn' : strip cn = cn := hcn cid cn ha
    by_cases hge : existsAttQ db.attendance d (norm_id (strip (String.mk ida))) "general"
    · by_cases hce : existsAttQ db.attendance d (norm_id (strip (String.mk ida))) (lower cn)
      · simp [markGeneralStep, markAfterGeneral, markCourseStep, markFinish, noFail,
          hge, ha, hce]
      · simp only [Bool.not_eq_true] at hce
        simp [markGeneralStep, markAfterGeneral, markCourseStep, markFinish, noFail,
          hge, ha, hce]
        constructor
        · rw [existsAttQ_append]
          simp [hge]
        · rw [existsAttQ_append]
          simp [existsAttQ, attPred_course_row _ _ _ _ _ hcn']
    · simp only [Bool.not_eq_true] at hge
      by_cases hce : existsAttQ
          (db.attendance ++
            [{ student_id := strip (String.mk ida), name := strip (String.mk nmb), date := d,
               time := t, course := "General" }])
          d (norm_id (strip (String.mk ida))) (lower cn)
      · simp [markGeneralStep, markAfterGeneral, markCourseStep, markFinish, noFail,
          hge, ha, hce]
        rw [existsAttQ_append]
        simp [existsAttQ, attPred_general_row]
      · simp only [Bool.not_eq_true] at hce
        simp [markGeneralStep, markAfterGeneral, markCourseStep, markFinish, noFail,
          hge, ha, hce]
        constructor
        · rw [existsAttQ_append]
          simp [existsAttQ, attPred_general_row]
        · rw [existsAttQ_append]
          simp [existsAttQ, attPred_course_row _ _ _ _ _ hcn']

/-- A second fault-free scan on the same date with the same normalised
student id (and unchanged database in between) inserts nothing, leaves the
database unchanged, and reports the "already recorded" messages. -/
theorem mark_second_scan (db : DB) (data1 data2 : Option String) (d t1 t2 : String)
    (a1 b1 a2 b2 : List Char)
    (hp1 : splitFirstBar (strip (pyOr data1 "")).data = some (a1, b1))
    (hp2 : splitFirstBar (strip (pyOr data2 "")).data = some (a2, b2))
    (hid : norm_id (String.mk a1) = norm_id (String.mk a2))
    (hcn : ∀ cid cn, get_course_row db d = some (cid, cn) → strip cn = cn) :
    (mark_attendance (mark_attendance db data1 d t1 noFail).2 data2 d t2 noFail).1.inserted = []
    ∧ (mark_attendance (mark_attendance db data1 d t1 noFail).2 data2 d t2 noFail).2
        = (mark_attendance db data1 d t1 noFail).2
    ∧ generalAlreadyMsg
        ∈ (mark_attendance (mark_attendance db data1 d t1 noFail).2 data2 d t2 noFail).1.messages
    ∧ (∀ cid cn, get_course_row db d = some (cid, cn) →
        courseAlreadyMsg cn
          ∈ (mark_attendance (mark_attendance db data1 d t1 noFail).2 data2 d t2
              noFail).1.messages) := by
  have hE := mark_establishes_exists db data1 d t1 a1 b1 hp1 hcn
  have hnorm : norm_id (strip (String.mk a1)) = norm_id (strip (String.mk a2)) := by
    rw [norm_id_strip, norm_id_strip, hid]
  have hact : get_course_row (mark_attendance db data1 d t1 noFail).2 d = get_course_row db d :=
    mark_get_course_row db data1 d t1 d noFail
  rw [mark_run (mark_attendance db data1 d t1 noFail).2 data2 d t2 a2 b2 hp2]
  have hge2 : existsAttQ ((mark_attendance db data1 d t1 noFail).2).attendance d
      (norm_id (strip (String.mk a2))) "general" = true := by
    rw [← hnorm]
    exact hE.1
  rcases ha : get_course_row db d with _ | ⟨cid, cn⟩
  · rw [ha] at hact
    simp [markGeneralStep, markAfterGeneral, markFinish, noFail, hge2, hact]
  · rw [ha] at hact
    have hce2 : existsAttQ ((mark_attendance db data1 d t1 noFail).2).attendance d
        (norm_id (strip (String.mk a2))) (lower cn) = true := by
      rw [← hnorm]
      exact hE.2 cid cn ha
    simp [markGeneralStep, markAfterGeneral, markCourseStep, markFinish, noFail,
      hge2, hce2, hact, ha]

/-- C7: the ledger existence check is case- and whitespace-insensitive on
the student id: when a second scan's student id differs from the first
scan's only by letter case or leading/trailing whitespace (their
`norm_id` values agree), the second scan finds the first record, inserts
no new row, and leaves the database unchanged. -/
theorem c7_existence_check_case_whitespace_insensitive
    (db : DB) (data1 data2 : Option String) (d t1 t2 : String)
    (a1 b1 a2 b2 : List Char)
    (hp1 : splitFirstBar (strip (pyOr data1 "")).data = some (a1, b1))
    (hp2 : splitFirstBar (strip (pyOr data2 "")).data = some (a2, b2))
    (hid : norm_id (String.mk a1) = norm_id (String.mk a2))
    (hcn : ∀ cid cn, get_course_row db d = some (cid, cn) → strip cn = cn) :
    (mark_attendance (mark_attendance db data1 d t1 noFail).2 data2 d t2 noFail).1.inserted = []
    ∧ (mark_attendance (mark_attendance db data1 d t1 noFail).2 data2 d t2 noFail).2
        = (mark_attendance db data1 d t1 noFail).2
    ∧ generalAlreadyMsg
        ∈ (mark_attendance (mark_attendance db data1 d t1 noFail).2 data2 d t2
            noFail).1.messages :=
  have h := mark_second_scan db data1 data2 d t1 t2 a1 b1 a2 b2 hp1 hp2 hid hcn
  ⟨h.1, h.2.1, h.2.2.1⟩

/-- Witness for C7: `"S100|Jane Doe"` then `" s100 |Jane Doe"` under active
course CS101 — the second scan inserts nothing. -/
theorem c7_existence_check_case_whitespace_insensitive_witness :
    (mark_attendance
        (mark_attendance
          { attendance := [], courses := [{ id := 1, course_name := "CS101" }],
            active_course := [{ id := 1, course_id := 1, active_date := "2024-03-01" }],
            nextCourseId := 2, nextActiveId := 2 }
          (some "S100|Jane Doe") "2024-03-01" "08:00:00" noFail).2
        (some " s100 |Jane Doe") "2024-03-01" "08:05:00" noFail).1.inserted = [] :=
  (c7_existence_check_case_whitespace_insensitive
    { attendance := [], courses := [{ id := 1, course_name := "CS101" }],
      active_course := [{ id := 1, course_id := 1, active_date := "2024-03-01" }],
      nextCourseId := 2, nextActiveId := 2 }
    (some "S100|Jane Doe") (some " s100 |Jane Doe") "2024-03-01" "08:00:00" "08:05:00"
    "S100".data "Jane Doe".data "s100 ".data "Jane Doe".data
    (by decide) (by decide) (by decide)
    (by
      intro cid cn h
      rw [show get_course_row
          { attendance := [], courses := [{ id := 1, course_name := "CS101" }],
            active_course := [{ id := 1, course_id := 1, active_date := "2024-03-01" }],
            nextCourseId := 2, nextActiveId := 2 } "2024-03-01" = some (1, "CS101")
        from by decide] at h
      cases h
      decide)).1

theorem countAtt_singleton (r : AttendanceRow) (d n c : String) :
    countAtt [r] d n c = if attPred d n c r then 1 else 0 := by
  simp [countAtt, List.countP_cons, List.countP_nil]

theorem attPred_course_row_ne (d t s nm cn cl : String) (hcn : strip cn = cn)
    (hne : lower cn ≠ cl) :
    attPred d (norm_id (strip s)) cl
      { student_id := strip s, name := nm, date := d, time := t, course := cn } = false := by
  simp [attPred, norm_id, hcn]
  exact hne

/-- C1: marking attendance is idempotent per (student, date, course).
If a ledger record already exists for (today, normalised student id,
normalised course) — for the General key or for the active course's key —
the call inserts no new row for that key and reports the matching
"already recorded" message; if records exist for every applicable key the
call inserts nothing at all.  Two successive identical scans on the same
day under the same active course leave exactly one ledger row for each
applicable course (General, plus the active course in course mode), with
the second call inserting zero rows and reporting "already recorded".
Hypotheses: the payload parses, the active course name (if any) is
whitespace-trimmed (`set_course` only stores trimmed names), and the
initial ledger satisfies the at-most-one-row invariant for the scanned
student's keys. -/
theorem c1_mark_attendance_idempotent
    (db : DB) (data : Option String) (d t1 t2 : String) (ida nmb : List Char)
    (hp : splitFirstBar (strip (pyOr data "")).data = some (ida, nmb))
    (hcn : ∀ cid cn, get_course_row db d = some (cid, cn) → strip cn = cn)
    (hg1 : countAtt db.attendance d (norm_id (strip (String.mk ida))) "general" ≤ 1)
    (hc1 : ∀ cid cn, get_course_row db d = some (cid, cn) →
        countAtt db.attendance d (norm_id (strip (String.mk ida))) (lower cn) ≤ 1) :
    (existsAttQ db.attendance d (norm_id (strip (String.mk ida))) "general" = true →
      countAtt ((mark_attendance db data d t1 noFail).2).attendance d
          (norm_id (strip (String.mk ida))) "general"
        = countAtt db.attendance d (norm_id (strip (String.mk ida))) "general"
      ∧ generalAlreadyMsg ∈ (mark_attendance db data d t1 noFail).1.messages)
    ∧ (∀ cid cn, get_course_row db d = some (cid, cn) →
        existsAttQ db.attendance d (norm_id (strip (String.mk ida))) (lower cn) = true →
        countAtt ((mark_attendance db data d t1 noFail).2).attendance d
            (norm_id (strip (String.mk ida))) (lower cn)
          = countAtt db.attendance d (norm_id (strip (String.mk ida))) (lower cn)
        ∧ courseAlreadyMsg cn ∈ (mark_attendance db data d t1 noFail).1.messages)
    ∧ (existsAttQ db.attendance d (norm_id (strip (String.mk ida))) "general" = true →
        (∀ cid cn, get_course_row db d = some (cid, cn) →
          existsAttQ db.attendance d (norm_id (strip (String.mk ida))) (lower cn) = true) →
        (mark_attendance db data d t1 noFail).1.inserted = []
        ∧ (mark_attendance db data d t1 noFail).2 = db)
    ∧ (mark_attendance (mark_attendance db data d t1 noFail).2 data d t2 noFail).1.inserted = []
    ∧ (mark_attendance (mark_attendance db data d t1 noFail).2 data d t2 noFail).2
        = (mark_attendance db data d t1 noFail).2
    ∧ generalAlreadyMsg
        ∈ (mark_attendance (mark_attendance db data d t1 noFail).2 data d t2 noFail).1.messages
    ∧ (∀ cid cn, get_course_row db d = some (cid, cn) →
        courseAlreadyMsg cn ∈
          (mark_attendance (mark_attendance db data d t1 noFail).2 data d t2 noFail).1.messages)
    ∧ countAtt ((mark_attendance db data d t1 noFail).2).attendance d
        (norm_id (strip (String.mk ida))) "general" = 1
    ∧ (∀ cid cn, get_course_row db d = some (cid, cn) →
        countAtt ((mark_attendance db data d t1 noFail).2).attendance d
          (norm_id (strip (String.mk ida))) (lower cn) = 1) := by
  obtain ⟨h2a, h2b, h2c, h2d⟩ :=
    mark_second_scan db data data d t1 t2 ida nmb ida nmb hp hp rfl hcn
  have hrw := mark_run db data d t1 ida nmb hp
  rcases ha : get_course_row db d with _ | ⟨cid0, cn0⟩
  · rw [ha] at h2d
    by_cases hge : existsAttQ db.attendance d (norm_id (strip (String.mk ida))) "general"
    · refine ⟨?_, ?_, ?_, h2a, h2b, h2c, h2d, ?_, ?_⟩
      · intro hx
        simp [hrw, markGeneralStep, markAfterGeneral, markFinish, noFail, ha, hge,
          generalAlreadyMsg]
      · intro cid cn h
        exact Option.noConfusion h
      · intro hx hall
        simp [hrw, markGeneralStep, markAfterGeneral, markFinish, noFail, ha, hge]
      · simp only [hrw, markGeneralStep, markAfterGeneral, markFinish, noFail, ha, hge,
          if_true]
        have := existsAttQ_true_count_pos db.attendance d
          (norm_id (strip (String.mk ida))) "general" hge
        omega
      · intro cid cn h
        exact Option.noConfusion h
    · simp only [Bool.not_eq_true] at hge
      have hz := (existsAttQ_false_iff db.attendance d
        (norm_id (strip (String.mk ida))) "general").mp hge
      refine ⟨?_, ?_, ?_, h2a, h2b, h2c, h2d, ?_, ?_⟩
      · intro hx
        rw [hge] at hx
        cases hx
      · intro cid cn h
        exact Option.noConfusion h
      · intro hx
        rw [hge] at hx
        cases hx
      · simp only [hrw, markGeneralStep, markAfterGeneral, markFinish, noFail, ha, hge,
          Bool.false_eq_true, if_false]
        rw [countAtt_append, countAtt_singleton, hz]
        simp [attPred_general_row]
      · intro cid cn h
        exact Option.noConfusion h
  · rw [ha] at h2d
    have hcn' : strip cn0 = cn0 := hcn cid0 cn0 ha
    by_cases hge : existsAttQ db.attendance d (norm_id (strip (String.mk ida))) "general"
    · by_cases hce : existsAttQ db.attendance d (norm_id (strip (String.mk ida))) (lower cn0)
      · refine ⟨?_, ?_, ?_, h2a, h2b, h2c, h2d, ?_, ?_⟩
        · intro hx
          simp [hrw, markGeneralStep, markAfterGeneral, markCourseStep, markFinish, noFail,
            ha, hge, hce, generalAlreadyMsg]
        · intro cid cn h hx
          cases h
          simp [hrw, markGeneralStep, markAfterGeneral, markCourseStep, markFinish, noFail,
            ha, hge, hce, courseAlreadyMsg]
        · intro hx hall
          simp [hrw, markGeneralStep, markAfterGeneral, markCourseStep, markFinish, noFail,
            ha, hge, hce]
        · simp only [hrw, markGeneralStep, markAfterGeneral, markCourseStep, markFinish,
            noFail, ha, hge, hce, if_true]
          have := existsAttQ_true_count_pos db.attendance d
            (norm_id (strip (String.mk ida))) "general" hge
          omega
        · intro cid cn h
          cases h
          simp only [hrw, markGeneralStep, markAfterGeneral, markCourseStep, markFinish,
            noFail, ha, hge, hce, if_true]
          have := existsAttQ_true_count_pos db.attendance d
            (norm_id (strip (String.mk ida))) (lower cn0) hce
          have hb := hc1 cid0 cn0 ha
          omega
      · simp only [Bool.not_eq_true] at hce
        have hzc := (existsAttQ_false_iff db.attendance d
          (norm_id (strip (String.mk ida))) (lower cn0)).mp hce
        have hne : ¬lower cn0 = "general" := by
          intro heq
          rw [heq] at hce
          rw [hge] at hce
          cases hce
        have hfg : attPred d (norm_id (strip (String.mk ida))) "general"
            { student_id := strip (String.mk ida), name := strip (String.mk nmb), date := d,
              time := t1, course := cn0 } = false :=
          attPred_course_row_ne d t1 (String.mk ida) (strip (String.mk nmb)) cn0 "general"
            hcn' hne
        refine ⟨?_, ?_, ?_, h2a, h2b, h2c, h2d, ?_, ?_⟩
        · intro hx
          simp only [hrw, markGeneralStep, markAfterGeneral, markCourseStep, markFinish,
            noFail, ha, hge, hce, if_true, Bool.false_eq_true, if_false]
          constructor
          · rw [countAtt_append, countAtt_singleton, hfg]
            simp
          · simp [generalAlreadyMsg]
        · intro cid cn h hx
          cases h
          rw [hce] at hx
          cases hx
        · intro hx hall
          have := hall cid0 cn0 rfl
          rw [hce] at this
          cases this
        · simp only [hrw, markGeneralStep, markAfterGeneral, markCourseStep, markFinish,
            noFail, ha, hge, hce, if_true, Bool.false_eq_true, if_false]
          rw [countAtt_append, countAtt_singleton, hfg]
          have := existsAttQ_true_count_pos db.attendance d
            (norm_id (strip (String.mk ida))) "general" hge
          simp
          omega
        · intro cid cn h
          cases h
          simp only [hrw, markGeneralStep, markAfterGeneral, markCourseStep, markFinish,
            noFail, ha, hge, hce, if_true, Bool.false_eq_true, if_false]
          rw [countAtt_append, countAtt_singleton, hzc,
            attPred_course_row d t1 (String.mk ida) (strip (String.mk nmb)) cn0 hcn']
          simp
    · simp only [Bool.not_eq_true] at hge
      have hzg := (existsAttQ_false_iff db.attendance d
        (norm_id (strip (String.mk ida))) "general").mp hge
      by_cases hce : existsAttQ
          (db.attendance ++
            [{ student_id := strip (String.mk ida), name := strip (String.mk nmb), date := d,
               time := t1, course := "General" }])
          d (norm_id (strip (String.mk ida))) (lower cn0)
      · refine ⟨?_, ?_, ?_, h2a, h2b, h2c, h2d, ?_, ?_⟩
        · intro hx
          rw [hge] at hx
          cases hx
        · intro cid cn h hx
          cases h
          simp only [hrw, markGeneralStep, markAfterGeneral, markCourseStep, markFinish,
            noFail, ha, hge, hce, Bool.false_eq_true, if_false, if_true]
          constructor
          · by_cases heq : lower cn0 = "general"
            · rw [heq] at hx
              rw [hge] at hx
              cases hx
            · rw [countAtt_append, countAtt_singleton]
              have hfg2 : attPred d (norm_id (strip (String.mk ida))) (lower cn0)
                  { student_id := strip (String.mk ida), name := strip (String.mk nmb),
                    date := d, time := t1, course := "General" } = false :=
                attPred_course_row_ne d t1 (String.mk ida) (strip (String.mk nmb))
                  "General" (lower cn0) (by decide)
                  (by
                    rw [show lower "General" = "general" from by decide]
                    exact fun hh => heq hh.symm)
              rw [hfg2]
              simp
          · simp [courseAlreadyMsg]
        · intro hx
          rw [hge] at hx
          cases hx
        · simp only [hrw, markGeneralStep, markAfterGeneral, markCourseStep, markFinish,
            noFail, ha, hge, hce, Bool.false_eq_true, if_false, if_true]
          rw [countAtt_append, countAtt_singleton, hzg, attPred_general_row]
          simp
        · intro cid cn h
          cases h
          simp only [hrw, markGeneralStep, markAfterGeneral, markCourseStep, markFinish,
            noFail, ha, hge, hce, Bool.false_eq_true, if_false, if_true]
          by_cases heq : lower cn0 = "general"
          · rw [countAtt_append, countAtt_singleton, heq, hzg, attPred_general_row]
            simp
          · have hgrow : attPred d (norm_id (strip (String.mk ida))) (lower cn0)
                { student_id := strip (String.mk ida), name := strip (String.mk nmb),
                  date := d, time := t1, course := "General" } = false :=
              attPred_course_row_ne d t1 (String.mk ida) (strip (String.mk nmb))
                "General" (lower cn0) (by decide)
                (by
                  rw [show lower "General" = "general" from by decide]
                  exact fun hh => heq hh.symm)
            rw [countAtt_append, countAtt_singleton, hgrow]
            have hx : existsAttQ db.attendance d
                (norm_id (strip (String.mk ida))) (lower cn0) = true := by
              rw [existsAttQ_append] at hce
              cases hA : existsAttQ db.attendance d
                  (norm_id (strip (String.mk ida))) (lower cn0) with
              | true => rfl
              | false =>
                rw [hA] at hce
                simp [existsAttQ, hgrow] at hce
            have := existsAttQ_true_count_pos db.attendance d
              (norm_id (strip (String.mk ida))) (lower cn0) hx
            have hb := hc1 cid0 cn0 ha
            simp
            omega
      · simp only [Bool.not_eq_true] at hce
        have hne : ¬lower cn0 = "general" := by
          intro heq
          rw [heq, existsAttQ_append] at hce
          obtain ⟨h1, h2⟩ := Bool.or_eq_false_iff.mp hce
          simp [existsAttQ, attPred_general_row] at h2
        have hgrow : attPred d (norm_id (strip (String.mk ida))) (lower cn0)
            { student_id := strip (String.mk ida), name := strip (String.mk nmb),
              date := d, time := t1, course := "General" } = false :=
          attPred_course_row_ne d t1 (String.mk ida) (strip (String.mk nmb))
            "General" (lower cn0) (by decide)
            (by
              rw [show lower "General" = "general" from by decide]
              exact fun hh => hne hh.symm)
        have hcrow_g : attPred d (norm_id (strip (String.mk ida))) "general"
            { student_id := strip (String.mk ida), name := strip (String.mk nmb), date := d,
              time := t1, course := cn0 } = false :=
          attPred_course_row_ne d t1 (String.mk ida) (strip (String.mk nmb)) cn0 "general"
            hcn' hne
        have hzc : countAtt db.attendance d
            (norm_id (strip (String.mk ida))) (lower cn0) = 0 := by
          rw [existsAttQ_append] at hce
          obtain ⟨h1, _⟩ := Bool.or_eq_false_iff.mp hce
          exact (existsAttQ_false_iff _ _ _ _).mp h1
        refine ⟨?_, ?_, ?_, h2a, h2b, h2c, h2d, ?_, ?_⟩
        · intro hx
          rw [hge] at hx
          cases hx
        · intro cid cn h hx
          cases h
          have hpos : (0:Nat) < countAtt db.attendance d (norm_id (strip (String.mk ida)))
              (lower cn0) := existsAttQ_true_count_pos _ _ _ _ hx
          omega
        · intro hx
          rw [hge] at hx
          cases hx
        · simp only [hrw, markGeneralStep, markAfterGeneral, markCourseStep, markFinish,
            noFail, ha, hge, hce, Bool.false_eq_true, if_false]
          rw [List.append_assoc, countAtt_append, hzg]
          simp [countAtt, List.countP_cons, attPred_general_row, hcrow_g]
        · intro cid cn h
          cases h
          simp only [hrw, markGeneralStep, markAfterGeneral, markCourseStep, markFinish,
            noFail, ha, hge, hce, Bool.false_eq_true, if_false]
          rw [List.append_assoc, countAtt_append, hzc]
          simp [countAtt, List.countP_cons, hgrow,
            attPred_course_row d t1 (String.mk ida) (strip (String.mk nmb)) cn0 hcn']

/-- Witness for C1: the spec's scenario — active course CS101, scanning
`"S100|Jane Doe"` twice — second call inserts zero rows. -/
theorem c1_mark_attendance_idempotent_witness :
    (mark_attendance
        (mark_attendance
          { attendance := [], courses := [{ id := 1, course_name := "CS101" }],
            active_course := [{ id := 1, course_id := 1, active_date := "2024-03-01" }],
            nextCourseId := 2, nextActiveId := 2 }
          (some "S100|Jane Doe") "2024-03-01" "08:00:00" noFail).2
        (some "S100|Jane Doe") "2024-03-01" "08:05:00" noFail).1.inserted = [] :=
  (c1_mark_attendance_idempotent
    { attendance := [], courses := [{ id := 1, course_name := "CS101" }],
      active_course := [{ id := 1, course_id := 1, active_date := "2024-03-01" }],
      nextCourseId := 2, nextActiveId := 2 }
    (some "S100|Jane Doe") "2024-03-01" "08:00:00" "08:05:00"
    "S100".data "Jane Doe".data (by decide)
    (by
      intro cid cn h
      rw [show get_course_row
          { attendance := [], courses := [{ id := 1, course_name := "CS101" }],
            active_course := [{ id := 1, course_id := 1, active_date := "2024-03-01" }],
            nextCourseId := 2, nextActiveId := 2 } "2024-03-01" = some (1, "CS101")
        from by decide] at h
      cases h
      decide)
    (by decide)
    (by
      intro cid cn h
      rw [show get_course_row
          { attendance := [], courses := [{ id := 1, course_name := "CS101" }],
            active_course := [{ id := 1, course_id := 1, active_date := "2024-03-01" }],
            nextCourseId := 2, nextActiveId := 2 } "2024-03-01" = some (1, "CS101")
        from by decide] at h
      cases h
      decide)).2.2.2.1

/-! ## `maxByAid` (the ORDER BY id DESC LIMIT 1 of the session queries) -/

theorem maxByAid_spec (l : List (ActiveCourseRow × CourseRow)) :
    ∀ p, maxByAid l = some p → p ∈ l ∧ ∀ q ∈ l, q.1.id ≤ p.1.id := by
  induction l with
  | nil => intro p hp; cases hp
  | cons x xs ih =>
    intro p hp
    rw [maxByAid] at hp
    cases hm : maxByAid xs with
    | none =>
      rw [hm] at hp
      cases hp
      have hxs : xs = [] := by
        cases xs with
        | nil => rfl
        | cons y ys =>
          rw [maxByAid] at hm
          cases h2 : maxByAid ys with
          | none => rw [h2] at hm; cases hm
          | some z => rw [h2] at hm; by_cases hb : z.1.id ≤ y.1.id <;> simp [hb] at hm
      subst hxs
      exact ⟨List.mem_singleton_self x, by simp⟩
    | some y =>
      rw [hm] at hp
      replace hp : (if y.1.id ≤ x.1.id then some x else some y) = some p := hp
      obtain ⟨hy_mem, hy_max⟩ := ih y hm
      by_cases hb : y.1.id ≤ x.1.id
      · rw [if_pos hb] at hp
        cases hp
        refine ⟨List.mem_cons_self x xs, ?_⟩
        intro q hq
        rcases List.mem_cons.mp hq with rfl | hq2
        · exact le_refl _
        · exact le_trans (hy_max q hq2) hb
      · rw [if_neg hb] at hp
        cases hp
        refine ⟨List.mem_cons_of_mem x hy_mem, ?_⟩
        intro q hq
        rcases List.mem_cons.mp hq with rfl | hq2
        · exact le_of_not_le hb
        · exact hy_max q hq2

theorem maxByAid_eq_none_iff (l : List (ActiveCourseRow × CourseRow)) :
    maxByAid l = none ↔ l = [] := by
  cases l with
  | nil => simp [maxByAid]
  | cons x xs =>
    simp only [maxByAid]
    cases hm : maxByAid xs with
    | none => simp
    | some y => by_cases hb : y.1.id ≤ x.1.id <;> simp [hb]

/-- C5: `/get_course` joins today's `active_course` rows with `courses` and
returns the joined row with the largest `active_course.id` — the most
recently inserted one, since AUTOINCREMENT ids grow with insertion order
(last-writer-wins) — and when no `active_course` row exists for the date it
returns `{active: false, course: "", mode: "general", course_id: null}`. -/
theorem c5_get_course_latest_wins_or_inactive (db : DB) (d : String) :
    ((∀ a ∈ db.active_course, a.active_date ≠ d) →
      get_course db d false = (noSessionResp, 200))
    ∧ (∀ p, maxByAid (activeJoin db d) = some p →
        get_course db d false =
          ({ active := true, course := p.2.course_name, mode := "course",
             course_id := some p.1.course_id }, 200)
        ∧ p ∈ activeJoin db d
        ∧ ∀ q ∈ activeJoin db d, q.1.id ≤ p.1.id) := by
  constructor
  · intro h
    have hfil : db.active_course.filter (fun a => a.active_date == d) = [] := by
      rw [List.filter_eq_nil_iff]
      intro a ha
      simp [h a ha]
    have hjoin : activeJoin db d = [] := by
      rw [activeJoin, hfil]
      rfl
    simp [get_course, get_course_row, hjoin, maxByAid]
  · intro p hp
    obtain ⟨hmem, hmax⟩ := maxByAid_spec (activeJoin db d) p hp
    refine ⟨?_, hmem, hmax⟩
    simp [get_course, get_course_row, hp]

/-- Witness for C5: with two sessions inserted for the same date (Math id 1,
Phys id 2), `get_course` reports Phys — the later insertion; on a date with
no rows it reports the inactive body. -/
theorem c5_get_course_latest_wins_or_inactive_witness :
    get_course
        { attendance := [], courses := [], active_course := [],
          nextCourseId := 1, nextActiveId := 1 } "2024-03-01" false = (noSessionResp, 200)
    ∧ get_course
        { attendance := [],
          courses := [{ id := 1, course_name := "Math" }, { id := 2, course_name := "Phys" }],
          active_course := [{ id := 1, course_id := 1, active_date := "2024-03-01" },
            { id := 2, course_id := 2, active_date := "2024-03-01" }],
          nextCourseId := 3, nextActiveId := 3 } "2024-03-01" false =
        ({ active := true, course := "Phys", mode := "course", course_id := some 2 }, 200) :=
  ⟨(c5_get_course_latest_wins_or_inactive
      { attendance := [], courses := [], active_course := [],
        nextCourseId := 1, nextActiveId := 1 } "2024-03-01").1 (by decide),
   ((c5_get_course_latest_wins_or_inactive
      { attendance := [],
        courses := [{ id := 1, course_name := "Math" }, { id := 2, course_name := "Phys" }],
        active_course := [{ id := 1, course_id := 1, active_date := "2024-03-01" },
          { id := 2, course_id := 2, active_date := "2024-03-01" }],
        nextCourseId := 3, nextActiveId := 3 } "2024-03-01").2
     (⟨{ id := 2, course_id := 2, active_date := "2024-03-01" },
        { id := 2, course_name := "Phys" }⟩)
     (by decide)).1⟩

/-- C10: if the storage query inside `/get_course` raises, the handler
returns exactly the body and status it returns when no session is active
for the date — the failure is indistinguishable from "no active session". -/
theorem c10_get_course_failure_looks_inactive (db dbNone : DB) (d : String)
    (h : ∀ a ∈ dbNone.active_course, a.active_date ≠ d) :
    get_course db d true = get_course dbNone d false
    ∧ get_course db d true = (noSessionResp, 200) := by
  have hfil : dbNone.active_course.filter (fun a => a.active_date == d) = [] := by
    rw [List.filter_eq_nil_iff]
    intro a ha
    simp [h a ha]
  have hjoin : activeJoin dbNone d = [] := by
    rw [activeJoin, hfil]
    rfl
  constructor
  · simp [get_course, get_course_row, hjoin, maxByAid]
  · simp [get_course]

/-- Witness for C10 at a database that does have an active session. -/
theorem c10_get_course_failure_looks_inactive_witness :
    get_course
        { attendance := [],
          courses := [{ id := 1, course_name := "Math" }],
          active_course := [{ id := 1, course_id := 1, active_date := "2024-03-01" }],
          nextCourseId := 2, nextActiveId := 2 } "2024-03-01" true = (noSessionResp, 200) :=
  (c10_get_course_failure_looks_inactive
    { attendance := [],
      courses := [{ id := 1, course_name := "Math" }],
      active_course := [{ id := 1, course_id := 1, active_date := "2024-03-01" }],
      nextCourseId := 2, nextActiveId := 2 }
    { attendance := [], courses := [], active_course := [],
      nextCourseId := 1, nextActiveId := 1 } "2024-03-01" (by decide)).2

/-- C6: `/set_course` with mode `"course"` resolves an existing course by
case/whitespace-normalised name (or creates it with a fresh id), then
ensures an `active_course` row exists for (courseId, today): the row count
for that key becomes 1 when it was 0 and is otherwise unchanged (so from
an at-most-one state, exactly one row exists afterwards), and repeating
the identical call is a no-op — it returns the same response and inserts
no duplicate row.  With mode `"general"` it deletes every `active_course`
row for today (any course field), so no course is active. -/
theorem c6_set_course_resolves_idempotent_general_clears (db : DB) (cn today : String)
    (hne : cn ≠ "") (h1 : strip cn = cn) (h2 : strip (lower cn) = lower cn) :
    (∃ cid,
      ((∃ r, db.courses.find?
            (fun c => lower (strip c.course_name) == strip (lower cn)) = some r
          ∧ cid = r.id
          ∧ (set_course db (some cn) (some "course") today).2.courses = db.courses)
        ∨ (db.courses.find?
            (fun c => lower (strip c.course_name) == strip (lower cn)) = none
          ∧ cid = db.nextCourseId
          ∧ (set_course db (some cn) (some "course") today).2.courses
              = db.courses ++ [{ id := cid, course_name := cn }]))
      ∧ countActive (set_course db (some cn) (some "course") today).2 cid today
          = (if countActive db cid today = 0 then 1 else countActive db cid today)
      ∧ (countActive db cid today ≤ 1 →
          countActive (set_course db (some cn) (some "course") today).2 cid today = 1))
    ∧ (set_course db (some cn) (some "course") today).1
        = { status := 200, message := "Course and mode updated" }
    ∧ set_course ((set_course db (some cn) (some "course") today).2)
          (some cn) (some "course") today
        = (set_course db (some cn) (some "course") today)
    ∧ (∀ craw, set_course db craw (some "general") today =
        ({ status := 200, message := "Course and mode updated" },
         { db with active_course :=
             db.active_course.filter (fun a => a.active_date != today) })) := by
  have hco : strip (pyOr (some cn) "") = cn := by
    rw [show pyOr (some cn) "" = cn from by simp [pyOr, hne], h1]
  have hmo : strip (pyOr (some "course") "general") = "course" := by decide
  have hrun : ∀ dbx : DB, set_course dbx (some cn) (some "course") today =
      (({ status := 200, message := "Course and mode updated" } : SetCourseResp),
        (let found := dbx.courses.find?
            (fun c => lower (strip c.course_name) == strip (lower cn))
         let course_id : Nat := match found with
           | some r => r.id
           | none => dbx.nextCourseId
         let db1 : DB := match found with
           | some _ => dbx
           | none =>
             { dbx with
               courses := dbx.courses ++ [{ id := dbx.nextCourseId, course_name := cn }],
               nextCourseId := dbx.nextCourseId + 1 }
         if db1.active_course.any
             (fun a => a.course_id == course_id && a.active_date == today)
         then db1
         else
           { db1 with
             active_course := db1.active_course ++
               [{ id := db1.nextActiveId, course_id := course_id, active_date := today }],
             nextActiveId := db1.nextActiveId + 1 })) := by
    intro dbx
    simp [set_course, hco, hmo, hne]
  have hgen : ∀ craw, set_course db craw (some "general") today =
      ({ status := 200, message := "Course and mode updated" },
       { db with active_course :=
           db.active_course.filter (fun a => a.active_date != today) }) := by
    intro craw
    simp only [set_course]
    rw [show strip (pyOr (some "general") "general") = "general" from by decide,
      if_neg (by decide : ¬("general" : String) = "course")]
  rcases hf : db.courses.find? (fun c => lower (strip c.course_name) == strip (lower cn))
    with _ | r
  · -- course not present: created as (db.nextCourseId, cn)
    have hSrw := hrun db
    simp only [hf] at hSrw
    have hpnc : (fun c : CourseRow => lower (strip c.course_name) == strip (lower cn))
        ({ id := db.nextCourseId, course_name := cn } : CourseRow) = true := by
      show (lower (strip cn) == strip (lower cn)) = true
      rw [h1, h2]
      exact beq_self_eq_true _
    have hfind2 : (db.courses ++ [({ id := db.nextCourseId, course_name := cn } : CourseRow)]).find?
        (fun c => lower (strip c.course_name) == strip (lower cn))
        = some ({ id := db.nextCourseId, course_name := cn } : CourseRow) := by
      rw [List.find?_append, hf, Option.none_or]
      exact List.find?_cons_of_pos [] hpnc
    by_cases hA : db.active_course.any
        (fun a => a.course_id == db.nextCourseId && a.active_date == today)
    · simp only [hA, if_true] at hSrw
      have hpos : 0 < countActive db db.nextCourseId today := by
        rw [countActive, List.countP_pos_iff]
        obtain ⟨a, ha, hpa⟩ := List.any_eq_true.mp hA
        exact ⟨a, ha, hpa⟩
      refine ⟨⟨db.nextCourseId, Or.inr ⟨hf, rfl, by rw [hSrw]⟩, ?_, ?_⟩,
        by rw [hSrw], ?_, hgen⟩
      · rw [hSrw, if_neg (by omega)]
        rfl
      · intro hle
        rw [hSrw]
        show countActive db db.nextCourseId today = 1
        omega
      · rw [hSrw, hrun]
        simp only [hfind2, hA, if_true]
    · simp only [Bool.not_eq_true] at hA
      simp only [hA, Bool.false_eq_true, if_false] at hSrw
      have hz : countActive db db.nextCourseId today = 0 := by
        rw [countActive, List.countP_eq_zero]
        intro a ha
        exact List.any_eq_false.mp hA a ha
      have hzP : db.active_course.countP
          (fun a => a.course_id == db.nextCourseId && a.active_date == today) = 0 := hz
      refine ⟨⟨db.nextCourseId, Or.inr ⟨hf, rfl, by rw [hSrw]⟩, ?_, ?_⟩,
        by rw [hSrw], ?_, hgen⟩
      · rw [hSrw, if_pos hz]
        show (db.active_course ++
            [({ id := db.nextActiveId, course_id := db.nextCourseId,
                active_date := today } : ActiveCourseRow)]).countP
            (fun a => a.course_id == db.nextCourseId && a.active_date == today) = 1
        rw [List.countP_append, hzP]
        simp
      · intro _
        rw [hSrw]
        show (db.active_course ++
            [({ id := db.nextActiveId, course_id := db.nextCourseId,
                active_date := today } : ActiveCourseRow)]).countP
            (fun a => a.course_id == db.nextCourseId && a.active_date == today) = 1
        rw [List.countP_append, hzP]
        simp
      · rw [hSrw, hrun]
        simp only [hfind2]
        simp [List.any_append]
  · -- course already present as r
    have hSrw := hrun db
    simp only [hf] at hSrw
    by_cases hA : db.active_course.any
        (fun a => a.course_id == r.id && a.active_date == today)
    · simp only [hA, if_true] at hSrw
      have hpos : 0 < countActive db r.id today := by
        rw [countActive, List.countP_pos_iff]
        obtain ⟨a, ha, hpa⟩ := List.any_eq_true.mp hA
        exact ⟨a, ha, hpa⟩
      refine ⟨⟨r.id, Or.inl ⟨r, hf, rfl, by rw [hSrw]⟩, ?_, ?_⟩,
        by rw [hSrw], ?_, hgen⟩
      · rw [hSrw, if_neg (by omega)]
      · intro hle
        rw [hSrw]
        show countActive db r.id today = 1
        omega
      · rw [hSrw, hrun]
        simp only [hf, hA, if_true]
    · simp only [Bool.not_eq_true] at hA
      simp only [hA, Bool.false_eq_true, if_false] at hSrw
      have hz : countActive db r.id today = 0 := by
        rw [countActive, List.countP_eq_zero]
        intro a ha
        exact List.any_eq_false.mp hA a ha
      have hzP : db.active_course.countP
          (fun a => a.course_id == r.id && a.active_date == today) = 0 := hz
      refine ⟨⟨r.id, Or.inl ⟨r, hf, rfl, by rw [hSrw]⟩, ?_, ?_⟩,
        by rw [hSrw], ?_, hgen⟩
      · rw [hSrw, if_pos hz]
        show (db.active_course ++
            [({ id := db.nextActiveId, course_id := r.id,
                active_date := today } : ActiveCourseRow)]).countP
            (fun a => a.course_id == r.id && a.active_date == today) = 1
        rw [List.countP_append, hzP]
        simp
      · intro _
        rw [hSrw]
        show (db.active_course ++
            [({ id := db.nextActiveId, course_id := r.id,
                active_date := today } : ActiveCourseRow)]).countP
            (fun a => a.course_id == r.id && a.active_date == today) = 1
        rw [List.countP_append, hzP]
        simp
      · rw [hSrw, hrun]
        simp only [hf]
        simp [List.any_append]


/-- Witness for C6: activating CS101 twice on an empty database — the
second call returns the same response and database as the first. -/
theorem c6_set_course_resolves_idempotent_general_clears_witness :
    set_course
        ((set_course
          { attendance := [], courses := [], active_course := [],
            nextCourseId := 1, nextActiveId := 1 }
          (some "CS101") (some "course") "2024-03-01").2)
        (some "CS101") (some "course") "2024-03-01"
      = set_course
          { attendance := [], courses := [], active_course := [],
            nextCourseId := 1, nextActiveId := 1 }
          (some "CS101") (some "course") "2024-03-01" :=
  (c6_set_course_resolves_idempotent_general_clears
    { attendance := [], courses := [], active_course := [],
      nextCourseId := 1, nextActiveId := 1 }
    "CS101" "2024-03-01" (by decide) (by decide) (by decide)).2.2.1

/-! ## C2: the mark-attendance call is NOT atomic -/

/-- Counterexample to C2: with course Math active and an empty ledger, a
scan during which the course INSERT raises leaves the call failed (generic
message, underlying error carried) — yet the General row inserted earlier
in the same call is still visible: it was committed on line 539 before the
course step ran, and the `except` branch performs no rollback.  Under the
claim the final attendance list would be `[]`. -/
theorem c2_atomicity_counterexample :
    (mark_attendance
        { attendance := [], courses := [{ id := 1, course_name := "Math" }],
          active_course := [{ id := 1, course_id := 1, active_date := "2024-03-01" }],
          nextCourseId := 2, nextActiveId := 2 }
        (some "S100|Jane") "2024-03-01" "08:00:00"
        (fun op => if op = StorageOp.insertCourse then some "disk error" else none)).1.success
      = false
    ∧ (mark_attendance
        { attendance := [], courses := [{ id := 1, course_name := "Math" }],
          active_course := [{ id := 1, course_id := 1, active_date := "2024-03-01" }],
          nextCourseId := 2, nextActiveId := 2 }
        (some "S100|Jane") "2024-03-01" "08:00:00"
        (fun op => if op = StorageOp.insertCourse then some "disk error" else none)).1.error
      = some "disk error"
    ∧ (mark_attendance
        { attendance := [], courses := [{ id := 1, course_name := "Math" }],
          active_course := [{ id := 1, course_id := 1, active_date := "2024-03-01" }],
          nextCourseId := 2, nextActiveId := 2 }
        (some "S100|Jane") "2024-03-01" "08:00:00"
        (fun op => if op = StorageOp.insertCourse then some "disk error" else none)).2.attendance
      = [{ student_id := "S100", name := "Jane", date := "2024-03-01", time := "08:00:00",
           course := "General" }] := by
  decide

/-- C2 as amended: each insert is committed individually, so the call is
not atomic.  When the course INSERT fails after a fresh General insert, the
call returns the generic failure (success=false, HTTP 500, message
"Failed to mark attendance") carrying the underlying error message, and the
General row committed earlier in the same call remains visible to readers —
prior inserts are not rolled back. -/
theorem c2_amended_commit_per_insert_no_rollback
    (db : DB) (data : Option String) (d t e : String) (ida nmb : List Char)
    (hp : splitFirstBar (strip (pyOr data "")).data = some (ida, nmb))
    (cid : Nat) (cn : String)
    (ha : get_course_row db d = some (cid, cn))
    (hge : existsAttQ db.attendance d (norm_id (strip (String.mk ida))) "general" = false)
    (hce : existsAttQ
        (db.attendance ++
          [{ student_id := strip (String.mk ida), name := strip (String.mk nmb), date := d,
             time := t, course := "General" }])
        d (norm_id (strip (String.mk ida))) (lower cn) = false) :
    mark_attendance db data d t
        (fun op => if op = StorageOp.insertCourse then some e else none)
      = (fail500 e,
         { db with attendance := db.attendance ++
             [{ student_id := strip (String.mk ida), name := strip (String.mk nmb), date := d,
                time := t, course := "General" }] }) := by
  simp only [mark_attendance, hp]
  simp [markGeneralStep, markAfterGeneral, markCourseStep, ha, hge, hce]

/-- Witness for the amended C2. -/
theorem c2_amended_commit_per_insert_no_rollback_witness :
    mark_attendance
        { attendance := [], courses := [{ id := 7, course_name := "Phys" }],
          active_course := [{ id := 3, course_id := 7, active_date := "2024-04-02" }],
          nextCourseId := 8, nextActiveId := 4 }
        (some "S200|Bob Roy") "2024-04-02" "09:30:00"
        (fun op => if op = StorageOp.insertCourse then some "database is locked" else none)
      = (fail500 "database is locked",
         { attendance := [{ student_id := "S200", name := "Bob Roy", date := "2024-04-02",
                            time := "09:30:00", course := "General" }],
           courses := [{ id := 7, course_name := "Phys" }],
           active_course := [{ id := 3, course_id := 7, active_date := "2024-04-02" }],
           nextCourseId := 8, nextActiveId := 4 }) :=
  c2_amended_commit_per_insert_no_rollback
    { attendance := [], courses := [{ id := 7, course_name := "Phys" }],
      active_course := [{ id := 3, course_id := 7, active_date := "2024-04-02" }],
      nextCourseId := 8, nextActiveId := 4 }
    (some "S200|Bob Roy") "2024-04-02" "09:30:00" "database is locked"
    "S200".data "Bob Roy".data (by decide) 7 "Phys" (by decide) (by decide) (by decide)

/-! ## C8: empty course name in course mode -/

/-- C8: a `/set_course` request with mode `"course"` and an empty or
missing course name is rejected with HTTP 400 and the database is
unchanged — the validation failure occurs before any storage write. -/
theorem c8_set_course_empty_name_rejected (db : DB) (craw : Option String) (today : String)
    (h : strip (pyOr craw "") = "") :
    set_course db craw (some "course") today =
      ({ status := 400, message := "Course required for course mode" }, db) := by
  simp only [set_course]
  rw [show strip (pyOr (some "course") "general") = "course" from by decide, h]
  simp

/-- Witness for C8 at a whitespace-only course name. -/
theorem c8_set_course_empty_name_rejected_witness :
    set_course
        { attendance := [], courses := [{ id := 1, course_name := "Math" }],
          active_course := [{ id := 1, course_id := 1, active_date := "2024-03-01" }],
          nextCourseId := 2, nextActiveId := 2 }
        (some "   ") (some "course") "2024-03-01" =
      ({ status := 400, message := "Course required for course mode" },
        { attendance := [], courses := [{ id := 1, course_name := "Math" }],
          active_course := [{ id := 1, course_id := 1, active_date := "2024-03-01" }],
          nextCourseId := 2, nextActiveId := 2 }) :=
  c8_set_course_empty_name_rejected
    { attendance := [], courses := [{ id := 1, course_name := "Math" }],
      active_course := [{ id := 1, course_id := 1, active_date := "2024-03-01" }],
      nextCourseId := 2, nextActiveId := 2 }
    (some "   ") "2024-03-01" (by decide)

/-! ## C9: which mode values select the general branch -/

/-- Counterexample to C9: the mode value `" course "` is a value other than
`"course"`, yet the handler strips it first, takes the course branch, and
does NOT delete today's `active_course` rows as the claim requires of every
non-`"course"` value: the pre-existing row for today survives. -/
theorem c9_mode_fallback_counterexample :
    ¬((set_course
        { attendance := [], courses := [{ id := 1, course_name := "Math" }],
          active_course := [{ id := 1, course_id := 1, active_date := "2024-03-01" }],
          nextCourseId := 2, nextActiveId := 2 }
        (some "Math") (some " course ") "2024-03-01").2.active_course
      = List.filter (fun a => a.active_date != "2024-03-01")
          [{ id := 1, course_id := 1, active_date := "2024-03-01" }]) := by
  decide

/-- C9 as amended: a `/set_course` request whose body omits "mode" (or
supplies a Python-falsy one) or supplies any value whose *stripped* form
differs from `"course"` is treated as general mode: all `active_course`
rows for today are deleted and the handler returns success, regardless of
the "course" field.  (A value such as `" course "` strips to `"course"`
and selects course mode instead.) -/
theorem c9_amended_general_mode_fallback (db : DB) (craw mraw : Option String) (today : String)
    (h : strip (pyOr mraw "general") ≠ "course") :
    set_course db craw mraw today =
      ({ status := 200, message := "Course and mode updated" },
       { db with active_course := db.active_course.filter (fun a => a.active_date != today) }) := by
  simp only [set_course]
  rw [if_neg h]

/-- Witness for the amended C9: mode omitted, arbitrary course field. -/
theorem c9_amended_general_mode_fallback_witness :
    set_course
        { attendance := [], courses := [{ id := 1, course_name := "Math" }],
          active_course := [{ id := 1, course_id := 1, active_date := "2024-03-01" },
            { id := 2, course_id := 1, active_date := "2024-02-28" }],
          nextCourseId := 2, nextActiveId := 3 }
        (some "Whatever") none "2024-03-01" =
      ({ status := 200, message := "Course and mode updated" },
        { attendance := [], courses := [{ id := 1, course_name := "Math" }],
          active_course := [{ id := 2, course_id := 1, active_date := "2024-02-28" }],
          nextCourseId := 2, nextActiveId := 3 }) := by
  rw [c9_amended_general_mode_fallback
    { attendance := [], courses := [{ id := 1, course_name := "Math" }],
      active_course := [{ id := 1, course_id := 1, active_date := "2024-03-01" },
        { id := 2, course_id := 1, active_date := "2024-02-28" }],
      nextCourseId := 2, nextActiveId := 3 }
    (some "Whatever") none "2024-03-01" (by decide)]
  decide

end KasuQR
